import Mathlib

/-!
Verification of the Lumivahti snow-load pipeline (server/routes.ts).

Shallow embedding conventions:
* JavaScript numbers are modelled as `ℚ` (the claims under scrutiny are exact
  boundary comparisons, additions, divisions and roundings, on which binary64
  and `ℚ` agree at the inputs involved).
* `Math.round x` is `⌊x + 1/2⌋` (JS rounds half towards +∞), `Math.ceil` is `⌈x⌉`.
* Network calls are modelled by a `FetchOutcome` value supplied by the
  environment: a successful response carries the body already parsed into the
  structured data the (total, regex-based) TS parser would extract from it;
  `httpError` is a response with `response.ok = false`; `thrown` is a rejected
  promise (network failure, `.text()`/`.json()` failure).  A TS `try/catch`
  becomes an explicit `match` on an `Except Unit` computation.
* `calculateDistance` (floating-point Haversine) and `Math.cos` are abstracted
  as oracle functions in the environment; no claim depends on their values.
* Calendar computations (`getMonth`, date keys, day names) are abstracted: the
  current month is an environment field, and the date/dayName/dateLabel triple
  of "today + i" is an environment function of `i`.
-/

namespace Lumivahti

/-- JS `Math.round`: round half towards positive infinity. -/
def jsRound (q : ℚ) : ℤ := ⌊q + 1/2⌋

/-- JS `Math.ceil`. -/
def jsCeil (q : ℚ) : ℤ := ⌈q⌉

/-- Risk status, from the `status` union type `"safe" | "moderate" | "critical"`. -/
inductive Status where
  | safe
  | moderate
  | critical
deriving DecidableEq, Repr

/-- Precipitation type, from the union `"snow" | "rain" | "sleet" | "none"`. -/
inductive PrecipType where
  | snow
  | rain
  | sleet
  | none
deriving DecidableEq, Repr

/-- Embeds routes.ts lines 161–162: `currentLoad = Math.round(snowResult.depth * 2.5)`. -/
def currentLoadOfDepth (depth : ℚ) : ℤ := jsRound (depth * (5/2))

/-- Embeds routes.ts lines 165–179: `percentage = (currentLoad / userThreshold) * 100`
followed by the three-way `if (percentage >= 100) ... else if (percentage >= 80) ... else`. -/
def classifyStatus (currentLoad userThreshold : ℚ) : Status :=
  let percentage := currentLoad / userThreshold * 100
  if percentage ≥ 100 then Status.critical
  else if percentage ≥ 80 then Status.moderate
  else Status.safe

/-- Embeds routes.ts lines 170–179: the Finnish status text chosen together with the status. -/
def statusText : Status → String
  | Status.critical => "Kriittinen"
  | Status.moderate => "Kohtalainen riski"
  | Status.safe => "Turvallinen"

/-- Embeds routes.ts lines 186–187:
`loadPercentage = (currentLoad / userThreshold) * 100;`
`showHeavyWetSnowWarning = loadPercentage >= 60 && forecastResult.hasThawConditions`. -/
def showHeavyWetSnowWarning (currentLoad userThreshold : ℚ) (hasThawConditions : Bool) : Bool :=
  let loadPercentage := currentLoad / userThreshold * 100
  decide (loadPercentage ≥ 60) && hasThawConditions

/-- Embeds the `ThawCondition` interface (routes.ts lines 997–1001); `maxTemp`
is the rounded daily maximum pushed at line 1096, `totalPrecip` the
one-decimal-rounded precipitation sum pushed at line 1097. -/
structure ThawCondition where
  date : String
  maxTemp : ℤ
  totalPrecip : ℚ
deriving DecidableEq, Repr

/-- Embeds `determinePrecipType` (routes.ts lines 1208–1225), an if-chain on
precipitation amount and the day's min/max/avg temperatures. -/
def determinePrecipType (avgTemp maxTemp minTemp precipAmount : ℚ) : PrecipType :=
  if precipAmount ≤ 0 then PrecipType.none
  else if maxTemp < -1 then PrecipType.snow
  else if minTemp > 2 then PrecipType.rain
  else if maxTemp > 0 ∧ minTemp < 0 then PrecipType.sleet
  else if avgTemp ≤ 0 then PrecipType.snow
  else if avgTemp ≥ 2 then PrecipType.rain
  else PrecipType.sleet

/-- Embeds the `PostalCodeInfo` shape `{ lat, lon, city }` used by the geo
resolver (routes.ts lines 553–707). -/
structure PostalCodeInfo where
  lat : ℚ
  lon : ℚ
  city : String
deriving DecidableEq, Repr

/-- Per-calendar-date sample bucket built by `parseTimeValuePairForecast`
(routes.ts lines 1160–1205): temperature samples, precipitation samples and
weather-symbol samples.  Symbols are integer FMI codes. -/
structure DayData where
  temps : List ℚ
  precip : List ℚ
  symbols : List ℤ
deriving DecidableEq, Repr

/-- Calendar metadata of "today + i": the ISO `dateKey`
(`toISOString().split('T')[0]`), the Finnish `dayName` from the `dayNames`
table, and the `dateLabel` string.  Date arithmetic is abstracted: the
environment supplies this triple per day offset. -/
structure DateInfo where
  dateKey : String
  dayName : String
  dateLabel : String
deriving DecidableEq, Repr

/-- Embeds the `ForecastDay` interface (routes.ts lines 1003–1015). -/
structure ForecastDay where
  date : String
  dayName : String
  dateLabel : String
  snowDepth : ℤ
  minTemp : ℤ
  maxTemp : ℤ
  temperature : ℤ
  precipAmount : ℚ
  precipType : PrecipType
  precipLabel : String
  icon : String
deriving DecidableEq, Repr

/-- Embeds the `ForecastWithThawResult` interface (routes.ts lines 1017–1021). -/
structure ForecastWithThawResult where
  forecast : List ForecastDay
  hasThawConditions : Bool
  thawConditions : List ThawCondition
deriving DecidableEq, Repr

/-- JS `Math.min(...xs)` on a list; the code only applies it to non-empty
sample lists (guarded by `dayData.temps.length > 0`). -/
def jsMin : List ℚ → ℚ
  | [] => 0
  | x :: xs => xs.foldl min x

/-- JS `Math.max(...xs)` on a list, under the same non-emptiness guard. -/
def jsMax : List ℚ → ℚ
  | [] => 0
  | x :: xs => xs.foldl max x

/-- JS `xs.reduce((a, b) => a + b, 0)`. -/
def listSum (l : List ℚ) : ℚ := l.foldl (· + ·) 0

/-- Finnish precipitation-type labels, the `typeLabels` table inside
`formatPrecipLabel` (routes.ts lines 1231–1236). -/
def typeLabel : PrecipType → String
  | PrecipType.snow => "lunta"
  | PrecipType.rain => "vettä"
  | PrecipType.sleet => "räntää"
  | PrecipType.none => ""

/-- Embeds `formatPrecipLabel` (routes.ts lines 1228–1244). -/
def formatPrecipLabel (amount : ℚ) (t : PrecipType) : String :=
  if t = PrecipType.none ∨ amount < 1/10 then "0 mm"
  else if amount ≤ 1 then
    "0–" ++ toString (max 1 (jsCeil amount)) ++ " mm " ++ typeLabel t
  else toString (jsRound amount) ++ " mm " ++ typeLabel t

/-- Embeds `getMostCommonSymbol` (routes.ts lines 1246–1263).  The JS `counts`
object has integer-like keys, which `Object.keys` yields in ascending numeric
order, so the loop returns the smallest symbol attaining the maximal count
(strict `count > maxCount` starting from `maxCount = 0`). -/
def getMostCommonSymbol (symbols : List ℤ) : ℤ :=
  match symbols with
  | [] => 0
  | s₀ :: _ =>
    let count := fun k => (symbols.filter (fun s => s = k)).length
    let keys := List.insertionSort (· ≤ ·) symbols.dedup
    (keys.foldl (fun acc k => if count k > acc.1 then (count k, k) else acc) (0, s₀)).2

/-- Embeds `getWeatherIconFromSymbol` (routes.ts lines 1265–1285). -/
def getWeatherIconFromSymbol (symbol : ℤ) (temp : ℚ) (precip : ℚ) : String :=
  if 51 ≤ symbol ∧ symbol ≤ 54 then "snow"
  else if 41 ≤ symbol ∧ symbol ≤ 45 then "snow"
  else if 31 ≤ symbol ∧ symbol ≤ 34 then "rain"
  else if 21 ≤ symbol ∧ symbol ≤ 25 then (if temp < 0 then "snow" else "rain")
  else if 71 ≤ symbol ∧ symbol ≤ 74 then "rain"
  else if symbol = 1 then "sunny"
  else if symbol = 2 then "partly-cloudy"
  else if precip > 0 ∧ temp < 0 then "snow"
  else if precip > 0 then "rain"
  else "cloudy"

/-- Embeds the `else` branch of the day loop (routes.ts lines 1125–1141):
the synthetic day pushed when no samples exist for a date. -/
def missingDataDay (lat : ℚ) (info : DateInfo) (accumulatedSnow : ℚ)
    (thaws : List ThawCondition) : ForecastDay × ℚ × List ThawCondition :=
  let defaultTemp : ℤ := if lat > 64 then -8 else -3
  ({ date := info.dateKey, dayName := info.dayName, dateLabel := info.dateLabel,
     snowDepth := jsRound accumulatedSnow, minTemp := defaultTemp - 3,
     maxTemp := defaultTemp + 2, temperature := defaultTemp, precipAmount := 0,
     precipType := PrecipType.none, precipLabel := "0 mm", icon := "cloudy" },
   accumulatedSnow, thaws)

/-- Embeds one iteration of the forecast day loop (routes.ts lines 1079–1141):
aggregates the day's samples, records a thaw condition when the rounded daily
maximum is ≥ 1 °C and the raw precipitation sum is ≥ 5 mm, updates the
accumulated snow depth, and builds the `ForecastDay`.  Returns the pushed day,
the updated accumulated depth and the updated thaw list. -/
def buildForecastDay (lat : ℚ) (info : DateInfo) (dayData : Option DayData)
    (accumulatedSnow : ℚ) (thaws : List ThawCondition) :
    ForecastDay × ℚ × List ThawCondition :=
  match dayData with
  | Option.none => missingDataDay lat info accumulatedSnow thaws
  | Option.some dd =>
    if dd.temps = [] then missingDataDay lat info accumulatedSnow thaws
    else
      let minTemp := jsRound (jsMin dd.temps)
      let maxTemp := jsRound (jsMax dd.temps)
      let avgTemp := jsRound (listSum dd.temps / (dd.temps.length : ℚ))
      let totalPrecip := listSum dd.precip
      let roundedPrecip : ℚ := (jsRound (totalPrecip * 10) : ℚ) / 10
      let precipType :=
        determinePrecipType (avgTemp : ℚ) (maxTemp : ℚ) (minTemp : ℚ) totalPrecip
      let precipLabel := formatPrecipLabel roundedPrecip precipType
      let thaws' :=
        if maxTemp ≥ 1 ∧ totalPrecip ≥ 5 then
          thaws ++ [⟨info.dateKey, maxTemp, roundedPrecip⟩]
        else thaws
      let accumulated' :=
        if (avgTemp : ℚ) < 0 ∧ totalPrecip > 0 then accumulatedSnow + totalPrecip
        else if (avgTemp : ℚ) > 2 then max 0 (accumulatedSnow - ((avgTemp : ℚ) - 2) * 2)
        else accumulatedSnow
      let mostCommonSymbol := getMostCommonSymbol dd.symbols
      let icon := getWeatherIconFromSymbol mostCommonSymbol (avgTemp : ℚ) totalPrecip
      ({ date := info.dateKey, dayName := info.dayName, dateLabel := info.dateLabel,
         snowDepth := jsRound accumulated', minTemp := minTemp, maxTemp := maxTemp,
         temperature := avgTemp, precipAmount := roundedPrecip, precipType := precipType,
         precipLabel := precipLabel, icon := icon }, accumulated', thaws')

/-- Embeds the `for (let i = 1; i <= 3; i++)` loop (routes.ts lines 1072–1142),
threading the accumulated snow depth and the thaw-condition list through the
three days.  Returns the forecast list and the thaw-condition list. -/
def buildForecastDays (lat : ℚ) (dates : ℕ → DateInfo) (getDay : ℕ → Option DayData)
    (currentSnowDepth : ℚ) : List ForecastDay × List ThawCondition :=
  let step := fun (st : List ForecastDay × ℚ × List ThawCondition) (i : ℕ) =>
    let r := buildForecastDay lat (dates i) (getDay i) st.2.1 st.2.2
    (st.1 ++ [r.1], r.2.1, r.2.2)
  let r := [1, 2, 3].foldl step ([], currentSnowDepth, [])
  (r.1, r.2.2)

/-- Winter predicate of the depth estimate, the `isWinter` binding of
`getMockSnowDepthResult` (routes.ts line 967): `month >= 10 || month <= 2`. -/
def mockIsWinter (month : ℕ) : Bool := month ≥ 10 || month ≤ 2

/-- Late-winter predicate of the depth estimate, the `isLateWinter` binding of
`getMockSnowDepthResult` (routes.ts line 969): `month === 2 || month === 3`. -/
def mockIsLateWinter (month : ℕ) : Bool := month == 2 || month == 3

/-- Result record of the station locator, embedding the `SnowDepthResult`
interface (routes.ts lines 723–728); `updatedAt` is an epoch-millisecond
timestamp. -/
structure SnowDepthResult where
  depth : ℤ
  stationName : Option String
  stationDistance : Option ℤ
  updatedAt : Option ℚ
deriving DecidableEq, Repr

/-- Embeds `getMockSnowDepthResult` (routes.ts lines 961–991): the
latitude/season-banded depth estimate (the `isEarlyWinter` binding of the
source is unused there and is omitted). -/
def getMockSnowDepthResult (lat : ℚ) (month : ℕ) : SnowDepthResult :=
  let isWinter := mockIsWinter month
  let isLateWinter := mockIsLateWinter month
  let baseDepth : ℤ :=
    if lat > 68 then (if isWinter then 25 else if isLateWinter then 15 else 5)
    else if lat > 66 then (if isWinter then 15 else if isLateWinter then 8 else 2)
    else if lat > 64 then (if isWinter then 10 else if isLateWinter then 5 else 0)
    else if lat > 62 then (if isWinter then 8 else if isLateWinter then 3 else 0)
    else (if isWinter then 3 else 0)
  { depth := baseDepth, stationName := Option.none, stationDistance := Option.none,
    updatedAt := Option.none }

/-- Winter predicate of the forecast fallback, the `isWinter` binding of
`getFallbackForecast` (routes.ts line 1294): `month >= 10 || month <= 3`. -/
def fallbackIsWinter (month : ℕ) : Bool := month ≥ 10 || month ≤ 3

/-- Base temperature band of the forecast fallback, the `baseTemp` binding of
`getFallbackForecast` (routes.ts line 1297). -/
def fallbackBaseTemp (lat : ℚ) : ℤ :=
  if lat > 64 then -12 else if lat > 62 then -8 else -4

/-- Embeds `getFallbackForecast` (routes.ts lines 1287–1323): the synthetic
3-day forecast used when the upstream forecast is unavailable. -/
def getFallbackForecast (lat : ℚ) (month : ℕ) (dates : ℕ → DateInfo) :
    List ForecastDay :=
  let isWinter := fallbackIsWinter month
  let baseSnow : ℤ := if lat > 64 then 45 else if lat > 62 then 30 else 15
  let baseTemp := fallbackBaseTemp lat
  [1, 2, 3].map fun i =>
    let info := dates i
    let temp : ℤ := baseTemp + ((i : ℤ) % 3 - 1) * 2
    { date := info.dateKey, dayName := info.dayName, dateLabel := info.dateLabel,
      snowDepth := if isWinter then baseSnow + (i : ℤ) * 2 else max 0 (baseSnow - (i : ℤ) * 3),
      minTemp := temp - 3, maxTemp := temp + 2, temperature := temp,
      precipAmount := if isWinter then 1 else 0,
      precipType := if isWinter then PrecipType.snow else PrecipType.none,
      precipLabel := if isWinter then "0–1 mm lunta" else "0 mm",
      icon := if isWinter then "snow" else "cloudy" }

/-- Outcome of one upstream `fetch`: a successful response whose body the
(total, regex-based) TS parser turns into `α`; a response with
`response.ok = false`; or a rejected promise (network or body-read failure). -/
inductive FetchOutcome (α : Type) where
  | ok (body : α)
  | httpError
  | thrown
deriving Repr

/-- One `omso:PointTimeSeriesObservation` block as the regex extraction of
`parseTimeValuePairSnowResponse` sees it: the optional `gml:name` text, the
optional `gml:pos` latitude/longitude pair, and the `wml2:MeasurementTVP`
time/value pairs, the value being `parseFloat`'s result (`none` models NaN). -/
structure Series where
  name : Option String
  pos : Option (ℚ × ℚ)
  measurements : List (ℚ × Option ℚ)
deriving DecidableEq, Repr

/-- Body of a per-station (`fmisid`) observation response as seen by
`fetchSnowFromStation`: the optional `gml:pos` pair and the measurement
time/value pairs. -/
structure StationBody where
  pos : Option (ℚ × ℚ)
  measurements : List (ℚ × Option ℚ)
deriving DecidableEq, Repr

/-- The latest-valid-measurement loop shared by `fetchSnowFromStation`
(routes.ts lines 854–869) and `parseTimeValuePairSnowResponse` (lines
918–933): keep a value only if it is numeric and in `[0, 500)`, and among
those the one with the greatest timestamp (a strictly later time replaces). -/
def latestValidMeasurement (ms : List (ℚ × Option ℚ)) : Option (ℚ × ℚ) :=
  ms.foldl
    (fun best m =>
      match m.2 with
      | Option.none => best
      | Option.some value =>
        if 0 ≤ value ∧ value < 500 then
          match best with
          | Option.none => Option.some (m.1, value)
          | Option.some b => if m.1 > b.1 then Option.some (m.1, value) else best
        else best)
    Option.none

/-- JS truthiness of an optional number (`undefined` and `0` are falsy). -/
def jsTruthyOpt (q : Option ℚ) : Bool :=
  match q with
  | Option.none => false
  | Option.some v => v ≠ 0

/-- Embeds `fetchSnowFromStation` (routes.ts lines 827–886): fetch one
station's daily snow observations, resolve the station position (from the
arguments via `stationLat || 0`, or from the body's `gml:pos` when the
arguments are falsy), select the latest valid measurement, and build the
result; `null` on HTTP error, thrown error, or no valid measurement. -/
def fetchSnowFromStation (dist : ℚ → ℚ → ℚ → ℚ → ℚ)
    (outcome : FetchOutcome StationBody) (stationName : String)
    (userLat userLon : ℚ) (stationLat stationLon : Option ℚ) :
    Option SnowDepthResult :=
  match outcome with
  | FetchOutcome.thrown => Option.none
  | FetchOutcome.httpError => Option.none
  | FetchOutcome.ok body =>
    let finalLat₀ := if jsTruthyOpt stationLat then stationLat.getD 0 else 0
    let finalLon₀ := if jsTruthyOpt stationLon then stationLon.getD 0 else 0
    let final :=
      if ¬ jsTruthyOpt stationLat ∨ ¬ jsTruthyOpt stationLon then
        match body.pos with
        | Option.some p => p
        | Option.none => (finalLat₀, finalLon₀)
      else (finalLat₀, finalLon₀)
    match latestValidMeasurement body.measurements with
    | Option.some tv =>
      Option.some
        { depth := jsRound tv.2, stationName := Option.some stationName,
          stationDistance := Option.some (jsRound (dist userLat userLon final.1 final.2)),
          updatedAt := Option.some tv.1 }
    | Option.none => Option.none

/-- The `if (latestValue !== null && latestTime && distance < bestDistance)`
update of the best-station fold in `parseTimeValuePairSnowResponse` (routes.ts
lines 896–944); the accumulator carries the best result with its (unrounded)
distance, `none` standing for `bestDistance = Infinity`. -/
def bestStationStep (dist : ℚ → ℚ → ℚ → ℚ → ℚ) (userLat userLon maxDistance : ℚ)
    (best : Option (SnowDepthResult × ℚ)) (s : Series) :
    Option (SnowDepthResult × ℚ) :=
  match s.pos with
  | Option.none => best
  | Option.some p =>
    let stationName := s.name.getD "Tuntematon asema"
    let distance := dist userLat userLon p.1 p.2
    if distance > maxDistance then best
    else
      match latestValidMeasurement s.measurements with
      | Option.none => best
      | Option.some tv =>
        let candidate : SnowDepthResult × ℚ :=
          ({ depth := jsRound tv.2, stationName := Option.some stationName,
             stationDistance := Option.some (jsRound distance),
             updatedAt := Option.some tv.1 }, distance)
        match best with
        | Option.none => Option.some candidate
        | Option.some b => if distance < b.2 then Option.some candidate else best

/-- Embeds `parseTimeValuePairSnowResponse` (routes.ts lines 888–953): fold
the best-station selection over all parsed series, and fall back to the
seasonal depth estimate when no station qualifies. -/
def parseTimeValuePairSnowResponse (dist : ℚ → ℚ → ℚ → ℚ → ℚ)
    (series : List Series) (userLat userLon maxDistance : ℚ) (month : ℕ) :
    SnowDepthResult :=
  match series.foldl (bestStationStep dist userLat userLon maxDistance) Option.none with
  | Option.some b => b.1
  | Option.none => getMockSnowDepthResult userLat month

/-- Bounding box passed to the FMI station query, in the source's
`lonMin,latMin,lonMax,latMax` order (routes.ts line 799). -/
structure BBox where
  minLon : ℚ
  minLat : ℚ
  maxLon : ℚ
  maxLat : ℚ
deriving DecidableEq, Repr

/-- Embeds the bounding-box construction of `searchStationsInRadius`
(routes.ts lines 797–799): `latDelta = radiusKm / 111`,
`lonDelta = radiusKm / (111 * Math.cos(lat * Math.PI / 180))`.  `cosOf` is the
abstracted `Math.cos` and `piQ` the abstracted `Math.PI`. -/
def searchBBox (cosOf : ℚ → ℚ) (piQ : ℚ) (lat lon radiusKm : ℚ) : BBox :=
  let latDelta := radiusKm / 111
  let lonDelta := radiusKm / (111 * cosOf (lat * piQ / 180))
  { minLon := lon - lonDelta, minLat := lat - latDelta,
    maxLon := lon + lonDelta, maxLat := lat + latDelta }

/-- Embeds `searchStationsInRadius` (routes.ts lines 796–825): query the
bounding box, parse, and return `null` on HTTP error, thrown error, or when
the parse result carries no station name. -/
def searchStationsInRadius (dist : ℚ → ℚ → ℚ → ℚ → ℚ) (cosOf : ℚ → ℚ) (piQ : ℚ)
    (bboxFetch : BBox → FetchOutcome (List Series)) (lat lon radiusKm : ℚ)
    (month : ℕ) : Option SnowDepthResult :=
  let bbox := searchBBox cosOf piQ lat lon radiusKm
  match bboxFetch bbox with
  | FetchOutcome.thrown => Option.none
  | FetchOutcome.httpError => Option.none
  | FetchOutcome.ok series =>
    let result := parseTimeValuePairSnowResponse dist series lat lon radiusKm month
    if result.stationName = Option.none then Option.none else Option.some result

/-- One entry of the hardcoded priority station lists (routes.ts lines
740–750). -/
structure StationRec where
  fmisid : String
  name : String
  lat : ℚ
  lon : ℚ
deriving DecidableEq, Repr

/-- The `KILPISJARVI_STATIONS` table (routes.ts lines 740–743). -/
def KILPISJARVI_STATIONS : List StationRec :=
  [⟨"102016", "Kilpisjärvi kyläkeskus", 69.0458, 20.7877⟩,
   ⟨"102017", "Kilpisjärvi Saana", 69.0422, 20.8508⟩]

/-- The `INARI_IVALO_STATIONS` table (routes.ts lines 746–750). -/
def INARI_IVALO_STATIONS : List StationRec :=
  [⟨"101784", "Ivalo lentoasema", 68.6073, 27.4053⟩,
   ⟨"101885", "Inari Saariselkä matkailukeskus", 68.4151, 27.4132⟩,
   ⟨"102003", "Inari Raja-Jooseppi", 68.4778, 28.3000⟩]

/-- The sequential `for (const station of ...)` probing with early return on
first success (routes.ts lines 760–766 and 772–778).  `stationFetch` is the
per-`fmisid` upstream outcome. -/
def tryStationList (dist : ℚ → ℚ → ℚ → ℚ → ℚ)
    (stationFetch : String → FetchOutcome StationBody)
    (lat lon : ℚ) : List StationRec → Option SnowDepthResult
  | [] => Option.none
  | st :: rest =>
    match fetchSnowFromStation dist (stationFetch st.fmisid) st.name lat lon
        (Option.some st.lat) (Option.some st.lon) with
    | Option.some r => Option.some r
    | Option.none => tryStationList dist stationFetch lat lon rest

/-- Environment of one request: the abstracted floating-point helpers
(`calculateDistance`, `Math.cos`, `Math.PI`, `Date.now()`), the upstream
outcomes of each network call, and the abstracted calendar (current 0-based
month and the `DateInfo` of "today + i").  `geocodeCache` is the state of the
module-level cache, `some` entries being previously stored hits or misses. -/
structure Env where
  dist : ℚ → ℚ → ℚ → ℚ → ℚ
  cosOf : ℚ → ℚ
  piQ : ℚ
  nowMs : ℚ
  stationFetch : String → FetchOutcome StationBody
  bboxFetch : BBox → FetchOutcome (List Series)
  forecastFetch : FetchOutcome (List (String × DayData))
  geocodeFetch : FetchOutcome (List (ℚ × ℚ × Option String))
  geocodeCache : String → Option (Option PostalCodeInfo)
  month : ℕ
  dates : ℕ → DateInfo

/-- Embeds `getSnowDepthWithStationInfo` (routes.ts lines 752–794): Kilpisjärvi
override list, then Inari/Ivalo override list, then the 25 km and 50 km
bounding-box phases, then the seasonal estimate. -/
def getSnowDepthWithStationInfo (env : Env) (lat lon : ℚ)
    (postalCode : Option String) : SnowDepthResult :=
  let kilpis :=
    if postalCode = Option.some "99130" ∨ postalCode = Option.some "99100" ∨
       postalCode = Option.some "99490" ∨ (lat > 69.0 ∧ lon > 20.5 ∧ lon < 21.0) then
      tryStationList env.dist env.stationFetch lat lon KILPISJARVI_STATIONS
    else Option.none
  match kilpis with
  | Option.some r => r
  | Option.none =>
    let inariGate :=
      (match postalCode with
       | Option.some pc => pc.startsWith "998" || pc.startsWith "997"
       | Option.none => false) = true ∨
      (lat > 68.0 ∧ lat < 69.5 ∧ lon > 27.0 ∧ lon < 29.0)
    let inari :=
      if inariGate then
        tryStationList env.dist env.stationFetch lat lon INARI_IVALO_STATIONS
      else Option.none
    match inari with
    | Option.some r => r
    | Option.none =>
      let phase := fun radiusKm =>
        match searchStationsInRadius env.dist env.cosOf env.piQ env.bboxFetch
            lat lon radiusKm env.month with
        | Option.some r =>
          if r.stationName.isSome then Option.some r else Option.none
        | Option.none => Option.none
      match phase 25 with
      | Option.some r => r
      | Option.none =>
        match phase 50 with
        | Option.some r => r
        | Option.none => getMockSnowDepthResult lat env.month

/-- Embeds the wrapper `getSnowDepth` (routes.ts lines 956–959). -/
def getSnowDepth (env : Env) (lat lon : ℚ) : ℤ :=
  (getSnowDepthWithStationInfo env lat lon Option.none).depth

/-- Embeds `getSnowForecastWithThawWarning` (routes.ts lines 1023–1157): on a
successful response the parsed per-date buckets drive the 3-day loop seeded
with the current snow depth; an HTTP error, an empty parse, or a thrown error
falls back to the synthetic seasonal forecast with no thaw conditions.  The
successful body is carried as the parsed daily map (an association list from
date key to `DayData`); the `threshold` parameter is unused, as in the
source. -/
def getSnowForecastWithThawWarning (env : Env) (lat lon : ℚ) (threshold : ℚ) :
    ForecastWithThawResult :=
  match env.forecastFetch with
  | FetchOutcome.thrown =>
    { forecast := getFallbackForecast lat env.month env.dates,
      hasThawConditions := false, thawConditions := [] }
  | FetchOutcome.httpError =>
    { forecast := getFallbackForecast lat env.month env.dates,
      hasThawConditions := false, thawConditions := [] }
  | FetchOutcome.ok dailyData =>
    if dailyData.length = 0 then
      { forecast := getFallbackForecast lat env.month env.dates,
        hasThawConditions := false, thawConditions := [] }
    else
      let currentSnowDepth := getSnowDepth env lat lon
      let getDay := fun i =>
        (dailyData.find? (fun kv => kv.1 = (env.dates i).dateKey)).map Prod.snd
      let r := buildForecastDays lat env.dates getDay (currentSnowDepth : ℚ)
      { forecast := r.1, hasThawConditions := decide (r.2.length > 0),
        thawConditions := r.2 }

/-- Qualification of a parsed series in the bounding-box search at distance
`d`: it has a position, its distance to the query point is within the cutoff,
and it has at least one valid measurement (routes.ts lines 904–935). -/
def QualDist (dist : ℚ → ℚ → ℚ → ℚ → ℚ) (userLat userLon maxDistance : ℚ)
    (s : Series) (d : ℚ) : Prop :=
  ∃ p, s.pos = Option.some p ∧ d = dist userLat userLon p.1 p.2 ∧
    d ≤ maxDistance ∧ latestValidMeasurement s.measurements ≠ Option.none

/-- Shape invariant of the best-station accumulator: a station name is
present and the reported distance is the rounded tracked distance. -/
def GoodBest (r : SnowDepthResult) (d : ℚ) : Prop :=
  r.stationName ≠ Option.none ∧ r.stationDistance = Option.some (jsRound d)

/-- The `KUOPIO_CENTER` constant (routes.ts line 469). -/
def KUOPIO_CENTER : PostalCodeInfo := { lat := 62.8933, lon := 27.6783, city := "Kuopio" }

/-- Embeds `geocodePostalCode` (routes.ts lines 493–549): cache lookup first,
then the Nominatim call; the first candidate's coordinates are taken and the
city is the second comma-separated, trimmed segment of `display_name`
(defaulting to "Tuntematon").  A candidate is carried as
`(lat, lon, display_name)` with coordinates already `parseFloat`ed.  HTTP
errors, thrown errors and empty result lists give `null`. -/
def geocodePostalCode (cache : String → Option (Option PostalCodeInfo))
    (outcome : FetchOutcome (List (ℚ × ℚ × Option String)))
    (postalCode : String) : Option PostalCodeInfo :=
  match cache postalCode with
  | Option.some cached => cached
  | Option.none =>
    match outcome with
    | FetchOutcome.thrown => Option.none
    | FetchOutcome.httpError => Option.none
    | FetchOutcome.ok data =>
      match data with
      | [] => Option.none
      | result :: _ =>
        let city :=
          match result.2.2 with
          | Option.some dn =>
            let parts := (dn.splitOn ",").map String.trim
            if parts.length ≥ 2 then parts.getD 1 "Tuntematon" else "Tuntematon"
          | Option.none => "Tuntematon"
        Option.some { lat := result.1, lon := result.2.1, city := city }

/-- The static `postalCodeMap` table of `getPostalCodeInfo` (routes.ts lines
553–707), reproduced entry for entry as an association list. -/
def postalCodeMap : List (String × PostalCodeInfo) := [
  Prod.mk "70100" (PostalCodeInfo.mk 62.8933 27.6783 "Kuopio"),
  Prod.mk "70110" (PostalCodeInfo.mk 62.8950 27.6800 "Kuopio"),
  Prod.mk "70200" (PostalCodeInfo.mk 62.9000 27.6700 "Kuopio"),
  Prod.mk "70210" (PostalCodeInfo.mk 62.8800 27.6900 "Kuopio"),
  Prod.mk "70300" (PostalCodeInfo.mk 62.8700 27.6500 "Kuopio"),
  Prod.mk "70340" (PostalCodeInfo.mk 62.8600 27.6600 "Kuopio"),
  Prod.mk "70400" (PostalCodeInfo.mk 62.9100 27.7000 "Kuopio"),
  Prod.mk "70420" (PostalCodeInfo.mk 62.9200 27.7100 "Kuopio"),
  Prod.mk "70500" (PostalCodeInfo.mk 62.8500 27.6400 "Kuopio"),
  Prod.mk "70600" (PostalCodeInfo.mk 62.8400 27.6200 "Kuopio"),
  Prod.mk "70700" (PostalCodeInfo.mk 62.8300 27.6000 "Kuopio"),
  Prod.mk "70800" (PostalCodeInfo.mk 62.8200 27.5800 "Kuopio"),
  Prod.mk "70820" (PostalCodeInfo.mk 62.8150 27.5700 "Kuopio"),
  Prod.mk "70840" (PostalCodeInfo.mk 62.8100 27.5600 "Kuopio"),
  Prod.mk "70870" (PostalCodeInfo.mk 62.8050 27.5500 "Kuopio"),
  Prod.mk "70900" (PostalCodeInfo.mk 62.8000 27.5400 "Kuopio"),
  Prod.mk "71100" (PostalCodeInfo.mk 62.9500 27.7200 "Kuopio"),
  Prod.mk "71130" (PostalCodeInfo.mk 62.9600 27.7300 "Kuopio"),
  Prod.mk "71150" (PostalCodeInfo.mk 62.9700 27.7400 "Kuopio"),
  Prod.mk "71160" (PostalCodeInfo.mk 62.9800 27.7500 "Kuopio"),
  Prod.mk "71200" (PostalCodeInfo.mk 63.0000 27.7600 "Kuopio"),
  Prod.mk "71310" (PostalCodeInfo.mk 63.0200 27.7800 "Kuopio"),
  Prod.mk "71330" (PostalCodeInfo.mk 63.0300 27.7900 "Kuopio"),
  Prod.mk "71380" (PostalCodeInfo.mk 63.0400 27.8000 "Kuopio"),
  Prod.mk "71460" (PostalCodeInfo.mk 63.0600 27.8200 "Kuopio"),
  Prod.mk "71470" (PostalCodeInfo.mk 63.0700 27.8300 "Kuopio"),
  Prod.mk "71480" (PostalCodeInfo.mk 63.0800 27.8400 "Kuopio"),
  Prod.mk "71490" (PostalCodeInfo.mk 63.0900 27.8500 "Kuopio"),
  Prod.mk "71520" (PostalCodeInfo.mk 62.8600 27.4000 "Kuopio"),
  Prod.mk "71530" (PostalCodeInfo.mk 62.8500 27.3800 "Kuopio"),
  Prod.mk "71540" (PostalCodeInfo.mk 62.8400 27.3600 "Kuopio"),
  Prod.mk "71570" (PostalCodeInfo.mk 62.8200 27.3200 "Kuopio"),
  Prod.mk "71610" (PostalCodeInfo.mk 62.7800 27.2800 "Kuopio"),
  Prod.mk "71620" (PostalCodeInfo.mk 62.7600 27.2600 "Kuopio"),
  Prod.mk "71630" (PostalCodeInfo.mk 62.7400 27.2400 "Kuopio"),
  Prod.mk "71640" (PostalCodeInfo.mk 62.7200 27.2200 "Kuopio"),
  Prod.mk "71650" (PostalCodeInfo.mk 62.7000 27.2000 "Kuopio"),
  Prod.mk "71660" (PostalCodeInfo.mk 62.6800 27.1800 "Kuopio"),
  Prod.mk "71670" (PostalCodeInfo.mk 62.6600 27.1600 "Kuopio"),
  Prod.mk "71680" (PostalCodeInfo.mk 62.6400 27.1400 "Kuopio"),
  Prod.mk "71690" (PostalCodeInfo.mk 62.6200 27.1200 "Kuopio"),
  Prod.mk "71720" (PostalCodeInfo.mk 62.9200 27.3000 "Kuopio"),
  Prod.mk "71730" (PostalCodeInfo.mk 62.9400 27.2800 "Kuopio"),
  Prod.mk "71740" (PostalCodeInfo.mk 62.9600 27.2600 "Kuopio"),
  Prod.mk "71745" (PostalCodeInfo.mk 62.9700 27.2500 "Kuopio"),
  Prod.mk "71750" (PostalCodeInfo.mk 62.9800 27.2400 "Kuopio"),
  Prod.mk "71760" (PostalCodeInfo.mk 62.9900 27.2300 "Kuopio"),
  Prod.mk "71770" (PostalCodeInfo.mk 63.0000 27.2200 "Kuopio"),
  Prod.mk "71800" (PostalCodeInfo.mk 62.8700 28.0000 "Siilinjärvi"),
  Prod.mk "71820" (PostalCodeInfo.mk 62.8800 28.0100 "Siilinjärvi"),
  Prod.mk "71840" (PostalCodeInfo.mk 62.8900 28.0200 "Siilinjärvi"),
  Prod.mk "71850" (PostalCodeInfo.mk 62.9000 28.0300 "Siilinjärvi"),
  Prod.mk "71870" (PostalCodeInfo.mk 62.9200 28.0500 "Siilinjärvi"),
  Prod.mk "71910" (PostalCodeInfo.mk 63.0500 27.6500 "Siilinjärvi"),
  Prod.mk "71920" (PostalCodeInfo.mk 63.0700 27.6300 "Siilinjärvi"),
  Prod.mk "71940" (PostalCodeInfo.mk 63.1000 27.6000 "Siilinjärvi"),
  Prod.mk "71950" (PostalCodeInfo.mk 63.1200 27.5800 "Siilinjärvi"),
  Prod.mk "71960" (PostalCodeInfo.mk 63.1400 27.5600 "Siilinjärvi"),
  Prod.mk "72100" (PostalCodeInfo.mk 63.2042 27.7274 "Karttula"),
  Prod.mk "72210" (PostalCodeInfo.mk 63.2500 27.7000 "Tervo"),
  Prod.mk "72300" (PostalCodeInfo.mk 63.1000 27.4500 "Vesanto"),
  Prod.mk "72400" (PostalCodeInfo.mk 63.0500 27.3500 "Pielavesi"),
  Prod.mk "72530" (PostalCodeInfo.mk 63.2000 26.7500 "Pielavesi"),
  Prod.mk "72600" (PostalCodeInfo.mk 63.2500 26.5000 "Keitele"),
  Prod.mk "73100" (PostalCodeInfo.mk 63.5500 27.1000 "Lapinlahti"),
  Prod.mk "73200" (PostalCodeInfo.mk 63.4000 27.4000 "Varpaisjärvi"),
  Prod.mk "73300" (PostalCodeInfo.mk 63.3000 27.8000 "Nilsiä"),
  Prod.mk "73310" (PostalCodeInfo.mk 63.3200 27.8200 "Nilsiä"),
  Prod.mk "73320" (PostalCodeInfo.mk 63.3400 27.8400 "Nilsiä"),
  Prod.mk "73350" (PostalCodeInfo.mk 63.3800 27.8800 "Tahkovuori"),
  Prod.mk "73360" (PostalCodeInfo.mk 63.4000 27.9000 "Tahkovuori"),
  Prod.mk "73900" (PostalCodeInfo.mk 63.0800 28.3000 "Rautavaara"),
  Prod.mk "74100" (PostalCodeInfo.mk 63.6500 27.8000 "Iisalmi"),
  Prod.mk "74120" (PostalCodeInfo.mk 63.5600 27.1900 "Iisalmi"),
  Prod.mk "74130" (PostalCodeInfo.mk 63.5700 27.2000 "Iisalmi"),
  Prod.mk "74140" (PostalCodeInfo.mk 63.5800 27.2100 "Iisalmi"),
  Prod.mk "74150" (PostalCodeInfo.mk 63.5900 27.2200 "Iisalmi"),
  Prod.mk "74160" (PostalCodeInfo.mk 63.6000 27.2300 "Iisalmi"),
  Prod.mk "74170" (PostalCodeInfo.mk 63.6100 27.2400 "Iisalmi"),
  Prod.mk "77600" (PostalCodeInfo.mk 62.4800 27.2400 "Suonenjoki"),
  Prod.mk "77610" (PostalCodeInfo.mk 62.4900 27.2500 "Suonenjoki"),
  Prod.mk "77630" (PostalCodeInfo.mk 62.5100 27.2700 "Suonenjoki"),
  Prod.mk "77700" (PostalCodeInfo.mk 62.6000 27.4000 "Rautalampi"),
  Prod.mk "77800" (PostalCodeInfo.mk 62.7000 27.2000 "Leppävirta"),
  Prod.mk "78200" (PostalCodeInfo.mk 62.5200 27.7500 "Varkaus"),
  Prod.mk "78210" (PostalCodeInfo.mk 62.3200 27.8900 "Varkaus"),
  Prod.mk "78250" (PostalCodeInfo.mk 62.3300 27.9000 "Varkaus"),
  Prod.mk "78300" (PostalCodeInfo.mk 62.3400 27.9100 "Varkaus"),
  Prod.mk "78310" (PostalCodeInfo.mk 62.3500 27.9200 "Varkaus"),
  Prod.mk "78500" (PostalCodeInfo.mk 62.4500 28.0000 "Joroinen"),
  Prod.mk "78850" (PostalCodeInfo.mk 62.4800 28.2000 "Leppävirta"),
  Prod.mk "79100" (PostalCodeInfo.mk 62.4874 27.7875 "Leppävirta"),
  Prod.mk "76100" (PostalCodeInfo.mk 62.3028 27.1304 "Pieksämäki"),
  Prod.mk "00100" (PostalCodeInfo.mk 60.1699 24.9384 "Helsinki"),
  Prod.mk "00120" (PostalCodeInfo.mk 60.1675 24.9427 "Helsinki"),
  Prod.mk "00130" (PostalCodeInfo.mk 60.1658 24.9553 "Helsinki"),
  Prod.mk "00140" (PostalCodeInfo.mk 60.1628 24.9689 "Helsinki"),
  Prod.mk "00150" (PostalCodeInfo.mk 60.1602 24.9452 "Helsinki"),
  Prod.mk "00160" (PostalCodeInfo.mk 60.1630 24.9250 "Helsinki"),
  Prod.mk "00170" (PostalCodeInfo.mk 60.1710 24.9550 "Helsinki"),
  Prod.mk "00180" (PostalCodeInfo.mk 60.1630 24.9500 "Helsinki"),
  Prod.mk "00200" (PostalCodeInfo.mk 60.1590 24.9514 "Helsinki"),
  Prod.mk "00250" (PostalCodeInfo.mk 60.1720 24.9050 "Helsinki"),
  Prod.mk "00300" (PostalCodeInfo.mk 60.1800 24.9100 "Helsinki"),
  Prod.mk "00400" (PostalCodeInfo.mk 60.2000 24.9100 "Helsinki"),
  Prod.mk "00500" (PostalCodeInfo.mk 60.1872 24.9214 "Helsinki"),
  Prod.mk "00510" (PostalCodeInfo.mk 60.1880 24.9650 "Helsinki"),
  Prod.mk "00520" (PostalCodeInfo.mk 60.1950 24.9500 "Helsinki"),
  Prod.mk "00530" (PostalCodeInfo.mk 60.1920 24.9650 "Helsinki"),
  Prod.mk "00550" (PostalCodeInfo.mk 60.1890 24.9750 "Helsinki"),
  Prod.mk "00560" (PostalCodeInfo.mk 60.2050 24.9600 "Helsinki"),
  Prod.mk "00600" (PostalCodeInfo.mk 60.2100 24.9200 "Helsinki"),
  Prod.mk "00700" (PostalCodeInfo.mk 60.2250 24.9300 "Helsinki"),
  Prod.mk "00800" (PostalCodeInfo.mk 60.2350 24.9400 "Helsinki"),
  Prod.mk "00900" (PostalCodeInfo.mk 60.2450 24.9500 "Helsinki"),
  Prod.mk "00920" (PostalCodeInfo.mk 60.2350 24.9050 "Helsinki"),
  Prod.mk "00940" (PostalCodeInfo.mk 60.2200 24.8800 "Helsinki"),
  Prod.mk "00980" (PostalCodeInfo.mk 60.2500 25.0000 "Helsinki"),
  Prod.mk "01000" (PostalCodeInfo.mk 60.2934 25.0378 "Vantaa"),
  Prod.mk "02100" (PostalCodeInfo.mk 60.1756 24.8058 "Espoo"),
  Prod.mk "02200" (PostalCodeInfo.mk 60.1850 24.8100 "Espoo"),
  Prod.mk "02600" (PostalCodeInfo.mk 60.2100 24.7500 "Espoo"),
  Prod.mk "33100" (PostalCodeInfo.mk 61.4978 23.7610 "Tampere"),
  Prod.mk "33200" (PostalCodeInfo.mk 61.5100 23.7700 "Tampere"),
  Prod.mk "33500" (PostalCodeInfo.mk 61.4850 23.8000 "Tampere"),
  Prod.mk "40100" (PostalCodeInfo.mk 62.2426 25.7473 "Jyväskylä"),
  Prod.mk "40200" (PostalCodeInfo.mk 62.2300 25.7600 "Jyväskylä"),
  Prod.mk "50100" (PostalCodeInfo.mk 61.6885 27.2723 "Mikkeli"),
  Prod.mk "53100" (PostalCodeInfo.mk 61.0587 28.1887 "Lappeenranta"),
  Prod.mk "65100" (PostalCodeInfo.mk 63.0951 21.6165 "Vaasa"),
  Prod.mk "80100" (PostalCodeInfo.mk 62.6024 29.7636 "Joensuu"),
  Prod.mk "90100" (PostalCodeInfo.mk 65.0121 25.4651 "Oulu"),
  Prod.mk "90200" (PostalCodeInfo.mk 65.0200 25.4500 "Oulu"),
  Prod.mk "90500" (PostalCodeInfo.mk 65.0000 25.5000 "Oulu"),
  Prod.mk "96100" (PostalCodeInfo.mk 66.5028 25.7285 "Rovaniemi"),
  Prod.mk "96200" (PostalCodeInfo.mk 66.5100 25.7000 "Rovaniemi"),
  Prod.mk "99100" (PostalCodeInfo.mk 69.0756 20.8150 "Kilpisjärvi"),
  Prod.mk "99130" (PostalCodeInfo.mk 69.0450 20.7890 "Kilpisjärvi"),
  Prod.mk "99300" (PostalCodeInfo.mk 68.4199 22.4898 "Muonio"),
  Prod.mk "99400" (PostalCodeInfo.mk 68.0580 23.5430 "Enontekiö"),
  Prod.mk "99490" (PostalCodeInfo.mk 69.0450 20.7890 "Kilpisjärvi"),
  Prod.mk "99600" (PostalCodeInfo.mk 67.4458 26.5746 "Sodankylä"),
  Prod.mk "99800" (PostalCodeInfo.mk 68.6588 27.5348 "Ivalo"),
  Prod.mk "99870" (PostalCodeInfo.mk 69.0700 27.0300 "Inari"),
  Prod.mk "99980" (PostalCodeInfo.mk 70.0922 27.9072 "Utsjoki"),
  Prod.mk "97500" (PostalCodeInfo.mk 67.8062 24.1508 "Muonio"),
  Prod.mk "97600" (PostalCodeInfo.mk 67.7500 24.1500 "Kittilä"),
  Prod.mk "97700" (PostalCodeInfo.mk 67.6600 23.6500 "Kittilä"),
  Prod.mk "98100" (PostalCodeInfo.mk 67.4100 26.5900 "Sodankylä"),
  Prod.mk "98530" (PostalCodeInfo.mk 67.7390 27.5285 "Sodankylä")
]

/-- Embeds `getPostalCodeInfo` (routes.ts lines 551–716): static map hit
first, otherwise dynamic geocoding. -/
def getPostalCodeInfo (env : Env) (postalCode : String) : Option PostalCodeInfo :=
  match postalCodeMap.find? (fun kv => kv.1 = postalCode) with
  | Option.some kv => Option.some kv.2
  | Option.none => geocodePostalCode env.geocodeCache env.geocodeFetch postalCode

/-- Embeds the relative "updated X ago" formatting (routes.ts lines 190–207);
times are epoch milliseconds. -/
def formatUpdatedAgo (nowMs : ℚ) (updatedAt : Option ℚ) : Option String :=
  match updatedAt with
  | Option.none => Option.none
  | Option.some t =>
    let diffMs := nowMs - t
    let diffHours := ⌊diffMs / (1000 * 60 * 60)⌋
    let diffMinutes := ⌊diffMs / (1000 * 60)⌋
    Option.some
      (if diffHours ≥ 24 then
        let diffDays := ⌊(diffHours : ℚ) / 24⌋
        if diffDays = 1 then "1 päivä sitten" else toString diffDays ++ " päivää sitten"
      else if diffHours ≥ 1 then
        if diffHours = 1 then "1 tunti sitten" else toString diffHours ++ " tuntia sitten"
      else if diffMinutes ≥ 1 then
        if diffMinutes = 1 then "1 minuutti sitten"
        else toString diffMinutes ++ " minuuttia sitten"
      else "juuri nyt")

/-- The `stationInfo` object of the response (routes.ts lines 221–225). -/
structure StationInfoOut where
  name : Option String
  distance : Option ℤ
  updatedAgo : Option String
deriving DecidableEq, Repr

/-- The JSON body assembled at routes.ts lines 209–226. -/
structure SnowDataResult where
  currentLoad : ℤ
  snowDepth : ℤ
  threshold : ℚ
  status : Status
  statusText : String
  forecast : List ForecastDay
  city : String
  distanceFromKuopio : ℤ
  isWithinServiceArea : Bool
  heavyWetSnowWarning : Bool
  thawConditions : List ThawCondition
  stationInfo : StationInfoOut
deriving DecidableEq, Repr

/-- Response of the `/api/snow-data/:postalCode` handler: the 200 body, the
404 `postal_code_not_found` error, or the 500 catch-all of lines 227–230. -/
inductive RouteResponse where
  | ok (result : SnowDataResult)
  | notFound
  | serverError
deriving DecidableEq, Repr

/-- Embeds the `/api/snow-data/:postalCode` handler body (routes.ts lines
138–231).  The `threshold` query parameter is carried as `Option ℤ`: `none`
is an absent parameter, `some t` a present parameter whose `parseInt` value
is `t`. -/
def snowDataRoute (env : Env) (postalCode : String) (threshold : Option ℤ) :
    RouteResponse :=
  match getPostalCodeInfo env postalCode with
  | Option.none => RouteResponse.notFound
  | Option.some postalInfo =>
    let distanceFromKuopio :=
      env.dist postalInfo.lat postalInfo.lon KUOPIO_CENTER.lat KUOPIO_CENTER.lon
    let isWithinServiceArea := decide (distanceFromKuopio ≤ 80)
    let snowResult := getSnowDepthWithStationInfo env postalInfo.lat postalInfo.lon
      (Option.some postalCode)
    let currentLoad := currentLoadOfDepth (snowResult.depth : ℚ)
    let userThreshold : ℚ := match threshold with
      | Option.some t => (t : ℚ)
      | Option.none => 140
    let status := classifyStatus (currentLoad : ℚ) userThreshold
    let forecastResult :=
      getSnowForecastWithThawWarning env postalInfo.lat postalInfo.lon userThreshold
    let warning := showHeavyWetSnowWarning (currentLoad : ℚ) userThreshold
      forecastResult.hasThawConditions
    let updatedAgo := formatUpdatedAgo env.nowMs snowResult.updatedAt
    RouteResponse.ok
      { currentLoad := currentLoad, snowDepth := snowResult.depth,
        threshold := userThreshold, status := status, statusText := statusText status,
        forecast := forecastResult.forecast, city := postalInfo.city,
        distanceFromKuopio := jsRound distanceFromKuopio,
        isWithinServiceArea := isWithinServiceArea, heavyWetSnowWarning := warning,
        thawConditions := forecastResult.thawConditions,
        stationInfo := { name := snowResult.stationName,
                         distance := snowResult.stationDistance,
                         updatedAgo := updatedAgo } }

/-- Candidate best-station state built by the selection step of
`parseTimeValuePairSnowResponse` (routes.ts lines 936–943). -/
def bestCandidate (dist : ℚ → ℚ → ℚ → ℚ → ℚ) (uLat uLon : ℚ) (s : Series)
    (p : ℚ × ℚ) (tv : ℚ × ℚ) : SnowDepthResult :=
  { depth := jsRound tv.2, stationName := Option.some (s.name.getD "Tuntematon asema"),
    stationDistance := Option.some (jsRound (dist uLat uLon p.1 p.2)),
    updatedAt := Option.some tv.1 }

/-- Concrete environment on which the pipeline is evaluated: every upstream
call fails with an HTTP error, the cache is empty, the floating-point oracles
are trivial, and the month is January. -/
def trivEnv : Env :=
  { dist := fun _ _ _ _ => 0, cosOf := fun _ => 1, piQ := 3, nowMs := 0,
    stationFetch := fun _ => FetchOutcome.httpError,
    bboxFetch := fun _ => FetchOutcome.httpError,
    forecastFetch := FetchOutcome.httpError,
    geocodeFetch := FetchOutcome.httpError,
    geocodeCache := fun _ => Option.none,
    month := 0, dates := fun _ => { dateKey := "d", dayName := "n", dateLabel := "l" } }

/-- Concrete distance oracle for evaluating the station selection: the
distance is simply the station's latitude. -/
def wDist : ℚ → ℚ → ℚ → ℚ → ℚ := fun _ _ slat _ => slat

/-- Concrete parsed station-search response with two qualifying stations, the
second one closer (distance 3) than the first encountered (distance 10). -/
def wSeries : List Series :=
  [{ name := Option.some "A", pos := Option.some (10, 0), measurements := [(0, Option.some 5)] },
   { name := Option.some "B", pos := Option.some (3, 0), measurements := [(0, Option.some 7)] }]

end Lumivahti

namespace Lumivahti

/-- C1: for `threshold > 0` the classification returns exactly one of the three
states, with closed boundaries at 80 % and 100 %: with
`percentage = load/threshold*100`, the result is `critical` iff
`percentage ≥ 100`, `moderate` iff `80 ≤ percentage < 100`, and `safe` iff
`percentage < 80`. -/
theorem classifyStatus_boundaries (load threshold : ℚ) (h : 0 < threshold) :
    (classifyStatus load threshold = Status.critical ↔ load / threshold * 100 ≥ 100) ∧
    (classifyStatus load threshold = Status.moderate ↔
      80 ≤ load / threshold * 100 ∧ load / threshold * 100 < 100) ∧
    (classifyStatus load threshold = Status.safe ↔ load / threshold * 100 < 80) := by
  unfold classifyStatus
  dsimp only
  split_ifs with h100 h80
  · refine ⟨⟨fun _ => h100, fun _ => rfl⟩, ?_, ?_⟩
    · exact ⟨fun hc => absurd hc (by decide), fun ⟨_, hlt⟩ => absurd h100 (not_le.mpr hlt)⟩
    · exact ⟨fun hc => absurd hc (by decide), fun hlt => absurd h100 (not_le.mpr (by linarith))⟩
  · refine ⟨?_, ⟨fun _ => ⟨h80, not_le.mp h100⟩, fun _ => rfl⟩, ?_⟩
    · exact ⟨fun hc => absurd hc (by decide), fun hge => absurd h100 (not_not_intro hge)⟩
    · exact ⟨fun hc => absurd hc (by decide), fun hlt => absurd h80 (not_le.mpr hlt)⟩
  · refine ⟨?_, ?_, ⟨fun _ => not_le.mp h80, fun _ => rfl⟩⟩
    · exact ⟨fun hc => absurd hc (by decide), fun hge => absurd h100 (not_not_intro hge)⟩
    · exact ⟨fun hc => absurd hc (by decide), fun ⟨hge, _⟩ => absurd h80 (not_not_intro hge)⟩

/-- Witness for C1: at threshold 140 a load of 112 is exactly 80 % (moderate),
111 falls below (safe), and 140 is exactly 100 % (critical); the same boundary
facts at ratio 0.80, 0.7999 and 1.00 over threshold 10000. -/
theorem classifyStatus_boundaries_witness :
    classifyStatus 112 140 = Status.moderate ∧
    classifyStatus 8000 10000 = Status.moderate ∧
    classifyStatus 7999 10000 = Status.safe ∧
    classifyStatus 10000 10000 = Status.critical := by
  refine ⟨?_, ?_, ?_, ?_⟩
  · exact ((classifyStatus_boundaries 112 140 (by norm_num)).2.1).mpr (by norm_num)
  · exact ((classifyStatus_boundaries 8000 10000 (by norm_num)).2.1).mpr (by norm_num)
  · exact ((classifyStatus_boundaries 7999 10000 (by norm_num)).2.2).mpr (by norm_num)
  · exact ((classifyStatus_boundaries 10000 10000 (by norm_num)).1).mpr (by norm_num)

/-- C2: for every depth in `[0, 500)` the computed load equals
`round(depth * 2.5)` (mathematical round-half-up, which agrees with JS
`Math.round`), and the load map is monotone non-decreasing on that interval. -/
theorem currentLoadOfDepth_round_mono (d : ℚ) (h0 : 0 ≤ d) (h500 : d < 500) :
    currentLoadOfDepth d = round (d * (5/2)) ∧
    ∀ d' : ℚ, 0 ≤ d' → d' < 500 → d ≤ d' →
      currentLoadOfDepth d ≤ currentLoadOfDepth d' := by
  constructor
  · rw [round_eq]
    rfl
  · intro d' _ _ hdd
    unfold currentLoadOfDepth jsRound
    apply Int.floor_le_floor
    have : d * (5/2) ≤ d' * (5/2) := by
      apply mul_le_mul_of_nonneg_right hdd
      norm_num
    linarith

/-- Witness for C2: at depth 3 cm the load is `round 7.5 = 8`, and the load at
depth 3 is at most the load at depth 4. -/
theorem currentLoadOfDepth_round_mono_witness :
    currentLoadOfDepth 3 = round ((3 : ℚ) * (5/2)) ∧ currentLoadOfDepth 3 ≤ currentLoadOfDepth 4 :=
  ⟨(currentLoadOfDepth_round_mono 3 (by norm_num) (by norm_num)).1,
   (currentLoadOfDepth_round_mono 3 (by norm_num) (by norm_num)).2 4
     (by norm_num) (by norm_num) (by norm_num)⟩

/-- C3: with the engine's `hasThawConditions` being `thawConditions.length > 0`
(routes.ts line 1146), the heavy-wet-snow warning is true iff
`(currentLoad/threshold)*100 ≥ 60` and at least one thaw-condition day exists. -/
theorem showHeavyWetSnowWarning_iff (load threshold : ℚ) (thaws : List ThawCondition)
    (h : 0 < threshold) :
    showHeavyWetSnowWarning load threshold (decide (thaws.length > 0)) = true ↔
      load / threshold * 100 ≥ 60 ∧ thaws ≠ [] := by
  unfold showHeavyWetSnowWarning
  have hlen : (decide (thaws.length > 0) = true) ↔ thaws ≠ [] := by
    simp [List.length_pos]
  constructor
  · intro hw
    rcases Bool.and_eq_true .. |>.mp hw with ⟨h1, h2⟩
    exact ⟨of_decide_eq_true h1, hlen.mp h2⟩
  · intro ⟨h1, h2⟩
    exact Bool.and_eq_true .. |>.mpr ⟨decide_eq_true h1, hlen.mpr h2⟩

/-- Witness for C3: at threshold 140, load 90 (64.3 %) with one thaw day the
warning is on; with zero thaw days it is off; at load 80 (57.1 %) it is off
even with a thaw day present. -/
theorem showHeavyWetSnowWarning_iff_witness :
    showHeavyWetSnowWarning 90 140 (decide (([⟨"2025-01-02", 2, 6⟩] :
        List ThawCondition).length > 0)) = true ∧
    showHeavyWetSnowWarning 90 140 (decide (([] : List ThawCondition).length > 0)) = false ∧
    showHeavyWetSnowWarning 80 140 (decide (([⟨"2025-01-02", 2, 6⟩] :
        List ThawCondition).length > 0)) = false := by
  refine ⟨?_, ?_, ?_⟩
  · exact (showHeavyWetSnowWarning_iff 90 140 [⟨"2025-01-02", 2, 6⟩] (by norm_num)).mpr
      ⟨by norm_num, by simp⟩
  · have := showHeavyWetSnowWarning_iff 90 140 ([] : List ThawCondition) (by norm_num)
    rw [Bool.eq_false_iff]
    intro hw
    exact absurd (this.mp hw).2 (by simp)
  · have := showHeavyWetSnowWarning_iff 80 140 [⟨"2025-01-02", 2, 6⟩] (by norm_num)
    rw [Bool.eq_false_iff]
    intro hw
    have h60 := (this.mp hw).1
    norm_num at h60

/-- C8: the precipitation type is decided in priority order: non-positive
amount gives `none`; then `maxTemp < -1` gives `snow`; then `minTemp > 2` gives
`rain`; then `maxTemp > 0 ∧ minTemp < 0` gives `sleet`; otherwise by average
temperature: `snow` if `avgTemp ≤ 0`, `rain` if `avgTemp ≥ 2`, else `sleet`. -/
theorem determinePrecipType_priority (avgTemp maxTemp minTemp precipAmount : ℚ) :
    (precipAmount ≤ 0 → determinePrecipType avgTemp maxTemp minTemp precipAmount =
      PrecipType.none) ∧
    (0 < precipAmount → maxTemp < -1 →
      determinePrecipType avgTemp maxTemp minTemp precipAmount = PrecipType.snow) ∧
    (0 < precipAmount → -1 ≤ maxTemp → 2 < minTemp →
      determinePrecipType avgTemp maxTemp minTemp precipAmount = PrecipType.rain) ∧
    (0 < precipAmount → -1 ≤ maxTemp → minTemp ≤ 2 → 0 < maxTemp → minTemp < 0 →
      determinePrecipType avgTemp maxTemp minTemp precipAmount = PrecipType.sleet) ∧
    (0 < precipAmount → -1 ≤ maxTemp → minTemp ≤ 2 → ¬(0 < maxTemp ∧ minTemp < 0) →
      avgTemp ≤ 0 →
      determinePrecipType avgTemp maxTemp minTemp precipAmount = PrecipType.snow) ∧
    (0 < precipAmount → -1 ≤ maxTemp → minTemp ≤ 2 → ¬(0 < maxTemp ∧ minTemp < 0) →
      0 < avgTemp → 2 ≤ avgTemp →
      determinePrecipType avgTemp maxTemp minTemp precipAmount = PrecipType.rain) ∧
    (0 < precipAmount → -1 ≤ maxTemp → minTemp ≤ 2 → ¬(0 < maxTemp ∧ minTemp < 0) →
      0 < avgTemp → avgTemp < 2 →
      determinePrecipType avgTemp maxTemp minTemp precipAmount = PrecipType.sleet) := by
  unfold determinePrecipType
  refine ⟨fun h0 => by simp [h0], ?_, ?_, ?_, ?_, ?_, ?_⟩
  · intro hp hmax
    simp [not_le.mpr hp, hmax]
  · intro hp hmax hmin
    simp [not_le.mpr hp, not_lt.mpr hmax, hmin]
  · intro hp hmax hmin hmx0 hmn0
    simp [not_le.mpr hp, not_lt.mpr hmax, not_lt.mpr hmin, hmx0, hmn0]
  · intro hp hmax hmin hcross havg
    simp [not_le.mpr hp, not_lt.mpr hmax, not_lt.mpr hmin, hcross, havg]
  · intro hp hmax hmin hcross havg0 havg2
    simp [not_le.mpr hp, not_lt.mpr hmax, not_lt.mpr hmin, hcross, not_le.mpr havg0,
      ge_iff_le, havg2]
  · intro hp hmax hmin hcross havg0 havg2
    simp [not_le.mpr hp, not_lt.mpr hmax, not_lt.mpr hmin, hcross, not_le.mpr havg0,
      not_le.mpr havg2]

/-- Witness for C8: a day with positive precipitation, max 1 °C, min −1 °C is
classified `sleet` through the temperature-crossing branch. -/
theorem determinePrecipType_priority_witness :
    determinePrecipType 5 1 (-1) 1 = PrecipType.sleet :=
  (determinePrecipType_priority 5 1 (-1) 1).2.2.2.1 (by norm_num) (by norm_num)
    (by norm_num) (by norm_num) (by norm_num)

/-- Helper: the day loop pushes exactly one forecast entry per day. -/
theorem buildForecastDays_length (lat : ℚ) (dates : ℕ → DateInfo)
    (getDay : ℕ → Option DayData) (currentSnowDepth : ℚ) :
    (buildForecastDays lat dates getDay currentSnowDepth).1.length = 3 := by
  have hstep : ∀ (st : List ForecastDay × ℚ × List ThawCondition) (i : ℕ),
      ((st.1 ++ [(buildForecastDay lat (dates i) (getDay i) st.2.1 st.2.2).1],
        (buildForecastDay lat (dates i) (getDay i) st.2.1 st.2.2).2.1,
        (buildForecastDay lat (dates i) (getDay i) st.2.1 st.2.2).2.2) :
        List ForecastDay × ℚ × List ThawCondition).1.length = st.1.length + 1 := by
    intro st i
    simp
  simp [buildForecastDays, List.foldl]

/-- Helper: the synthetic fallback forecast has exactly three entries. -/
theorem getFallbackForecast_length (lat : ℚ) (month : ℕ) (dates : ℕ → DateInfo) :
    (getFallbackForecast lat month dates).length = 3 := by
  simp [getFallbackForecast]

/-- C5: for every environment (successful response, empty or partial parse,
HTTP error status, or thrown network/parse error) the forecast array of the
result has exactly 3 entries, synthesized from fallback data when upstream
data is unavailable. -/
theorem getSnowForecast_always_three_days (env : Env) (lat lon threshold : ℚ) :
    (getSnowForecastWithThawWarning env lat lon threshold).forecast.length = 3 := by
  unfold getSnowForecastWithThawWarning
  cases env.forecastFetch with
  | thrown => exact getFallbackForecast_length lat env.month env.dates
  | httpError => exact getFallbackForecast_length lat env.month env.dates
  | ok dailyData =>
    by_cases h : dailyData.length = 0
    · simp only [h, if_pos rfl]
      exact getFallbackForecast_length lat env.month env.dates
    · simp only [if_neg h]
      exact buildForecastDays_length lat env.dates _ _

/-- C6: the snow-data operation never propagates a lower-level failure: for
every environment (arbitrary outcomes of the geocoding, station, bounding-box
and forecast calls, including HTTP errors, thrown errors and malformed
bodies) it returns a usable result, or the single NotFound error exactly when
the postal code is unresolvable; the 500 catch-all is never reached. -/
theorem snowDataRoute_no_exception (env : Env) (postalCode : String)
    (threshold : Option ℤ) :
    ((getPostalCodeInfo env postalCode = Option.none ∧
        snowDataRoute env postalCode threshold = RouteResponse.notFound) ∨
      (getPostalCodeInfo env postalCode ≠ Option.none ∧
        ∃ r, snowDataRoute env postalCode threshold = RouteResponse.ok r)) ∧
    snowDataRoute env postalCode threshold ≠ RouteResponse.serverError := by
  unfold snowDataRoute
  cases h : getPostalCodeInfo env postalCode with
  | none => exact ⟨Or.inl ⟨rfl, rfl⟩, by simp⟩
  | some info => exact ⟨Or.inr ⟨by simp, _, rfl⟩, by simp⟩

/-- Counterexample for C9: the two seasonal fallback tables do not share one
winter band.  In month 3 (April) the depth estimate is out of its winter band
(giving the late-winter depth 3 at latitude 63, not the winter depth 8),
while the forecast fallback is still in its winter band (producing snow
precipitation on all three synthetic days). -/
theorem seasonBanding_counterexample :
    mockIsWinter 3 = false ∧ fallbackIsWinter 3 = true ∧
    (getMockSnowDepthResult 63 3).depth = 3 ∧
    ((getFallbackForecast 63 3 (fun _ => ⟨"d", "n", "l"⟩)).map ForecastDay.precipType) =
      [PrecipType.snow, PrecipType.snow, PrecipType.snow] := by
  refine ⟨rfl, rfl, by norm_num [getMockSnowDepthResult, mockIsWinter, mockIsLateWinter], ?_⟩
  norm_num [getFallbackForecast, fallbackIsWinter]

/-- C9 (amended): the depth estimate's winter band is exactly the months with
0-based index 10, 11, 0, 1, 2, while the forecast fallback's winter band is
the months 10, 11, 0, 1, 2, 3 (April included); within the forecast fallback,
day i's base temperature is `baseTemp + (i % 3 - 1) * 2`. -/
theorem seasonBanding_amended :
    (∀ m : ℕ, mockIsWinter m = decide (10 ≤ m ∨ m ≤ 2)) ∧
    (∀ m : ℕ, fallbackIsWinter m = decide (10 ≤ m ∨ m ≤ 3)) ∧
    (∀ (lat : ℚ) (month : ℕ) (dates : ℕ → DateInfo),
      (getFallbackForecast lat month dates).map ForecastDay.temperature =
        [fallbackBaseTemp lat + ((1 : ℤ) % 3 - 1) * 2,
         fallbackBaseTemp lat + ((2 : ℤ) % 3 - 1) * 2,
         fallbackBaseTemp lat + ((3 : ℤ) % 3 - 1) * 2]) := by
  refine ⟨?_, ?_, ?_⟩
  · intro m
    by_cases h1 : 10 ≤ m <;> by_cases h2 : m ≤ 2 <;> simp [mockIsWinter, h1, h2]
  · intro m
    by_cases h1 : 10 ≤ m <;> by_cases h2 : m ≤ 3 <;> simp [fallbackIsWinter, h1, h2]
  · intro lat month dates
    simp [getFallbackForecast]

/-- C10: when the `threshold` query parameter is absent, the default 140 is
used: the response equals the response for an explicit threshold of 140, its
`threshold` field is 140, and the status and the heavy-wet-snow warning are
computed against 140. -/
theorem snowDataRoute_default_threshold (env : Env) (postalCode : String)
    (info : PostalCodeInfo) (h : getPostalCodeInfo env postalCode = Option.some info) :
    snowDataRoute env postalCode Option.none =
      snowDataRoute env postalCode (Option.some 140) ∧
    ∃ r, snowDataRoute env postalCode Option.none = RouteResponse.ok r ∧
      r.threshold = 140 ∧
      r.status = classifyStatus (r.currentLoad : ℚ) 140 ∧
      r.heavyWetSnowWarning = showHeavyWetSnowWarning (r.currentLoad : ℚ) 140
        (getSnowForecastWithThawWarning env info.lat info.lon 140).hasThawConditions := by
  unfold snowDataRoute
  rw [h]
  have h140 : ((140 : ℤ) : ℚ) = (140 : ℚ) := by norm_num
  constructor
  · simp only [h140]
  · exact ⟨_, rfl, rfl, rfl, rfl⟩

/-- Witness for C10: the static postal code 00100 resolves without any
network call, and the default-threshold response on the all-failing
environment matches the explicit-140 response. -/
theorem snowDataRoute_default_threshold_witness :
    snowDataRoute trivEnv "00100" Option.none =
      snowDataRoute trivEnv "00100" (Option.some 140) ∧
    ∃ r, snowDataRoute trivEnv "00100" Option.none = RouteResponse.ok r ∧
      r.threshold = 140 ∧
      r.status = classifyStatus (r.currentLoad : ℚ) 140 ∧
      r.heavyWetSnowWarning = showHeavyWetSnowWarning (r.currentLoad : ℚ) 140
        (getSnowForecastWithThawWarning trivEnv (60.1699 : ℚ) (24.9384 : ℚ)
          140).hasThawConditions :=
  snowDataRoute_default_threshold trivEnv "00100"
    { lat := 60.1699, lon := 24.9384, city := "Helsinki" } (by rfl)

/-- Helper: the thaw-condition list produced by one day of the forecast loop,
as a closed-form conditional. -/
theorem buildForecastDay_thaws (lat : ℚ) (info : DateInfo) (dd : DayData)
    (acc : ℚ) (thaws : List ThawCondition) (h : dd.temps ≠ []) :
    (buildForecastDay lat info (Option.some dd) acc thaws).2.2 =
      if jsRound (jsMax dd.temps) ≥ 1 ∧ listSum dd.precip ≥ 5 then
        thaws ++ [ThawCondition.mk info.dateKey (jsRound (jsMax dd.temps)) ((jsRound (listSum dd.precip * 10) : ℚ) / 10)]
      else thaws := by
  unfold buildForecastDay
  dsimp only
  rw [if_neg h]

/-- Counterexample for C4: a day whose maximum temperature sample is 0.9 °C
(below 1) with 5 mm precipitation IS recorded as a thaw condition, because
the check applies to the rounded maximum (`Math.round(Math.max(...temps))`),
and `0.9` rounds to `1`. -/
theorem thawCondition_counterexample :
    (buildForecastDay 60 (DateInfo.mk "2025-01-02" "To" "To 2.1.")
        (Option.some (DayData.mk [9/10] [5] [])) 0 []).2.2 =
      [ThawCondition.mk "2025-01-02" 1 5] ∧
    jsMax [9/10] < 1 := by
  constructor
  · rw [buildForecastDay_thaws 60 (DateInfo.mk "2025-01-02" "To" "To 2.1.")
      (DayData.mk [9/10] [5] []) 0 [] (by simp)]
    norm_num [jsMax, listSum, jsRound]
  · norm_num [jsMax]

/-- C4 (amended): a day with samples is recorded as a thaw condition exactly
when its ROUNDED maximum temperature (`Math.round` of the day's max sample)
is ≥ 1 and its raw precipitation sum is ≥ 5 mm; the recorded entry carries the
rounded max and the one-decimal-rounded sum.  `hasThawConditions` is true iff
at least one thaw-condition day exists.  On the raw maximum the temperature
boundary is therefore 0.5 °C, not 1 °C. -/
theorem thawCondition_amended (lat : ℚ) (info : DateInfo) (dd : DayData)
    (acc : ℚ) (thaws : List ThawCondition) (h : dd.temps ≠ []) :
    ((buildForecastDay lat info (Option.some dd) acc thaws).2.2 ≠ thaws ↔
      jsRound (jsMax dd.temps) ≥ 1 ∧ listSum dd.precip ≥ 5) ∧
    ((buildForecastDay lat info (Option.some dd) acc thaws).2.2 =
      if jsRound (jsMax dd.temps) ≥ 1 ∧ listSum dd.precip ≥ 5 then
        thaws ++ [ThawCondition.mk info.dateKey (jsRound (jsMax dd.temps)) ((jsRound (listSum dd.precip * 10) : ℚ) / 10)]
      else thaws) ∧
    (∀ (env : Env) (lat' lon' threshold : ℚ),
      (getSnowForecastWithThawWarning env lat' lon' threshold).hasThawConditions = true ↔
        (getSnowForecastWithThawWarning env lat' lon' threshold).thawConditions ≠ []) := by
  have hb := buildForecastDay_thaws lat info dd acc thaws h
  refine ⟨?_, hb, ?_⟩
  · rw [hb]
    constructor
    · intro hne
      by_contra hc
      rw [if_neg hc] at hne
      exact hne rfl
    · intro hc
      rw [if_pos hc]
      intro heq
      have := congrArg List.length heq
      simp at this
  · intro env lat' lon' threshold
    unfold getSnowForecastWithThawWarning
    cases env.forecastFetch with
    | thrown => simp
    | httpError => simp
    | ok dailyData =>
      by_cases hlen : dailyData.length = 0
      · simp [hlen]
      · simp only [if_neg hlen]
        simp [List.length_pos]

/-- Witness for C4 (amended): a day with max sample exactly 1 °C and 5 mm is
recorded; a day with max 1 °C but only 4.9 mm is not. -/
theorem thawCondition_amended_witness :
    (buildForecastDay 60 { dateKey := "d", dayName := "n", dateLabel := "l" }
        (Option.some { temps := [1], precip := [5], symbols := [] }) 0 []).2.2 ≠ [] ∧
    ¬ ((buildForecastDay 60 { dateKey := "d", dayName := "n", dateLabel := "l" }
        (Option.some { temps := [1], precip := [49/10], symbols := [] }) 0 []).2.2 ≠ []) := by
  constructor
  · exact (thawCondition_amended 60 _ _ 0 [] (by simp)).1.mpr
      (by norm_num [jsRound, jsMax, listSum])
  · intro hne
    have := (thawCondition_amended 60 { dateKey := "d", dayName := "n", dateLabel := "l" }
      { temps := [1], precip := [49/10], symbols := [] } 0 [] (by simp)).1.mp hne
    norm_num [listSum] at this

/-- Helper: value of the best-station step when the series has no position. -/
theorem bestStationStep_noPos (dist : ℚ → ℚ → ℚ → ℚ → ℚ) (uLat uLon maxD : ℚ)
    (best : Option (SnowDepthResult × ℚ)) (s : Series) (hpos : s.pos = Option.none) :
    bestStationStep dist uLat uLon maxD best s = best := by
  unfold bestStationStep
  rw [hpos]

/-- Helper: value of the best-station step when the series is beyond the
cutoff distance. -/
theorem bestStationStep_far (dist : ℚ → ℚ → ℚ → ℚ → ℚ) (uLat uLon maxD : ℚ)
    (best : Option (SnowDepthResult × ℚ)) (s : Series) (p : ℚ × ℚ)
    (hpos : s.pos = Option.some p) (hfar : dist uLat uLon p.1 p.2 > maxD) :
    bestStationStep dist uLat uLon maxD best s = best := by
  unfold bestStationStep
  rw [hpos]
  simp only [if_pos hfar]

/-- Helper: value of the best-station step when the series has no valid
measurement. -/
theorem bestStationStep_noMeas (dist : ℚ → ℚ → ℚ → ℚ → ℚ) (uLat uLon maxD : ℚ)
    (best : Option (SnowDepthResult × ℚ)) (s : Series) (p : ℚ × ℚ)
    (hpos : s.pos = Option.some p) (hnear : ¬ dist uLat uLon p.1 p.2 > maxD)
    (hmeas : latestValidMeasurement s.measurements = Option.none) :
    bestStationStep dist uLat uLon maxD best s = best := by
  unfold bestStationStep
  rw [hpos]
  simp only [if_neg hnear, hmeas]

/-- Helper: value of the best-station step on a qualifying series. -/
theorem bestStationStep_qual (dist : ℚ → ℚ → ℚ → ℚ → ℚ) (uLat uLon maxD : ℚ)
    (best : Option (SnowDepthResult × ℚ)) (s : Series) (p : ℚ × ℚ) (tv : ℚ × ℚ)
    (hpos : s.pos = Option.some p) (hnear : ¬ dist uLat uLon p.1 p.2 > maxD)
    (hmeas : latestValidMeasurement s.measurements = Option.some tv) :
    bestStationStep dist uLat uLon maxD best s =
      match best with
      | Option.none => Option.some (bestCandidate dist uLat uLon s p tv,
          dist uLat uLon p.1 p.2)
      | Option.some b =>
        if dist uLat uLon p.1 p.2 < b.2 then
          Option.some (bestCandidate dist uLat uLon s p tv, dist uLat uLon p.1 p.2)
        else best := by
  unfold bestStationStep bestCandidate
  rw [hpos]
  simp only [if_neg hnear, hmeas]

/-- Helper: folding the best-station step from an established best state keeps
a well-formed state, never increases the tracked distance, reaches a tracked
distance achieved by the initial state or a qualifying series, and ends at
most at the distance of every qualifying series of the list. -/
theorem bestFold_from_some (dist : ℚ → ℚ → ℚ → ℚ → ℚ) (uLat uLon maxD : ℚ)
    (l : List Series) :
    ∀ (r : SnowDepthResult) (d : ℚ), GoodBest r d →
    ∃ r' d', l.foldl (bestStationStep dist uLat uLon maxD) (Option.some (r, d)) =
        Option.some (r', d') ∧ GoodBest r' d' ∧ d' ≤ d ∧
      ((r' = r ∧ d' = d) ∨ ∃ s ∈ l, QualDist dist uLat uLon maxD s d') ∧
      ∀ s ∈ l, ∀ ds, QualDist dist uLat uLon maxD s ds → d' ≤ ds := by
  induction l with
  | nil =>
    intro r d hg
    exact ⟨r, d, rfl, hg, le_refl d, Or.inl ⟨rfl, rfl⟩, by simp⟩
  | cons s t ih =>
    intro r d hg
    have hqs : ∀ p, s.pos = Option.some p → ∀ ds,
        QualDist dist uLat uLon maxD s ds → ds = dist uLat uLon p.1 p.2 := by
      intro p hp ds ⟨p', hp', hds, _, _⟩
      rw [hp] at hp'
      cases hp'
      exact hds
    cases hpos : s.pos with
    | none =>
      rw [List.foldl_cons, bestStationStep_noPos dist uLat uLon maxD _ s hpos]
      obtain ⟨r', d', hfold, hg', hle, hach, hmin⟩ := ih r d hg
      refine ⟨r', d', hfold, hg', hle, ?_, ?_⟩
      · rcases hach with h | ⟨s', hs', hq⟩
        · exact Or.inl h
        · exact Or.inr ⟨s', List.mem_cons_of_mem s hs', hq⟩
      · intro s' hs' ds hq
        rcases List.mem_cons.mp hs' with rfl | hmem
        · obtain ⟨p, hp, _⟩ := hq
          rw [hpos] at hp
          exact absurd hp (by simp)
        · exact hmin s' hmem ds hq
    | some p =>
      by_cases hfar : dist uLat uLon p.1 p.2 > maxD
      · rw [List.foldl_cons, bestStationStep_far dist uLat uLon maxD _ s p hpos hfar]
        obtain ⟨r', d', hfold, hg', hle, hach, hmin⟩ := ih r d hg
        refine ⟨r', d', hfold, hg', hle, ?_, ?_⟩
        · rcases hach with h | ⟨s', hs', hq⟩
          · exact Or.inl h
          · exact Or.inr ⟨s', List.mem_cons_of_mem s hs', hq⟩
        · intro s' hs' ds hq
          rcases List.mem_cons.mp hs' with rfl | hmem
          · obtain ⟨p', hp', hds, hcut, _⟩ := hq
            rw [hpos] at hp'
            cases hp'
            rw [hds] at hcut
            exact absurd hcut (not_le.mpr hfar)
          · exact hmin s' hmem ds hq
      · cases hmeas : latestValidMeasurement s.measurements with
        | none =>
          rw [List.foldl_cons,
            bestStationStep_noMeas dist uLat uLon maxD _ s p hpos hfar hmeas]
          obtain ⟨r', d', hfold, hg', hle, hach, hmin⟩ := ih r d hg
          refine ⟨r', d', hfold, hg', hle, ?_, ?_⟩
          · rcases hach with h | ⟨s', hs', hq⟩
            · exact Or.inl h
            · exact Or.inr ⟨s', List.mem_cons_of_mem s hs', hq⟩
          · intro s' hs' ds hq
            rcases List.mem_cons.mp hs' with rfl | hmem
            · obtain ⟨_, _, _, _, hne⟩ := hq
              exact absurd hmeas hne
            · exact hmin s' hmem ds hq
        | some tv =>
          have hstep := bestStationStep_qual dist uLat uLon maxD
            (Option.some (r, d)) s p tv hpos hfar hmeas
          have hqself : QualDist dist uLat uLon maxD s (dist uLat uLon p.1 p.2) :=
            ⟨p, hpos, rfl, not_lt.mp hfar, by rw [hmeas]; simp⟩
          by_cases hcloser : dist uLat uLon p.1 p.2 < d
          · rw [List.foldl_cons, hstep]
            simp only [if_pos hcloser]
            have hgc : GoodBest (bestCandidate dist uLat uLon s p tv)
                (dist uLat uLon p.1 p.2) := ⟨by simp [bestCandidate], rfl⟩
            obtain ⟨r', d', hfold, hg', hle, hach, hmin⟩ := ih _ _ hgc
            refine ⟨r', d', hfold, hg', le_trans hle (le_of_lt hcloser), ?_, ?_⟩
            · rcases hach with ⟨_, hd'⟩ | ⟨s', hs', hq⟩
              · exact Or.inr ⟨s, List.mem_cons_self s t, hd' ▸ hqself⟩
              · exact Or.inr ⟨s', List.mem_cons_of_mem s hs', hq⟩
            · intro s' hs' ds hq
              rcases List.mem_cons.mp hs' with rfl | hmem
              · rw [hqs p hpos ds hq]
                exact hle
              · exact hmin s' hmem ds hq
          · rw [List.foldl_cons, hstep]
            simp only [if_neg hcloser]
            obtain ⟨r', d', hfold, hg', hle, hach, hmin⟩ := ih r d hg
            refine ⟨r', d', hfold, hg', hle, ?_, ?_⟩
            · rcases hach with h | ⟨s', hs', hq⟩
              · exact Or.inl h
              · exact Or.inr ⟨s', List.mem_cons_of_mem s hs', hq⟩
            · intro s' hs' ds hq
              rcases List.mem_cons.mp hs' with rfl | hmem
              · rw [hqs p hpos ds hq]
                exact le_trans hle (not_lt.mp hcloser)
              · exact hmin s' hmem ds hq

/-- Helper: when some series of the list qualifies, folding the best-station
step from the empty state selects a well-formed result whose tracked distance
is achieved by a qualifying series and is minimal among all qualifying
series. -/
theorem bestFold_from_none (dist : ℚ → ℚ → ℚ → ℚ → ℚ) (uLat uLon maxD : ℚ)
    (l : List Series)
    (hq : ∃ s ∈ l, ∃ ds, QualDist dist uLat uLon maxD s ds) :
    ∃ r' d', l.foldl (bestStationStep dist uLat uLon maxD) Option.none =
        Option.some (r', d') ∧ GoodBest r' d' ∧
      (∃ s ∈ l, QualDist dist uLat uLon maxD s d') ∧
      ∀ s ∈ l, ∀ ds, QualDist dist uLat uLon maxD s ds → d' ≤ ds := by
  induction l with
  | nil => simp at hq
  | cons s t ih =>
    have hqs : ∀ p, s.pos = Option.some p → ∀ ds,
        QualDist dist uLat uLon maxD s ds → ds = dist uLat uLon p.1 p.2 := by
      intro p hp ds ⟨p', hp', hds, _, _⟩
      rw [hp] at hp'
      cases hp'
      exact hds
    cases hpos : s.pos with
    | none =>
      rw [List.foldl_cons, bestStationStep_noPos dist uLat uLon maxD _ s hpos]
      have hqt : ∃ s' ∈ t, ∃ ds, QualDist dist uLat uLon maxD s' ds := by
        obtain ⟨s', hs', ds, hq'⟩ := hq
        rcases List.mem_cons.mp hs' with rfl | hmem
        · obtain ⟨p, hp, _⟩ := hq'
          rw [hpos] at hp
          exact absurd hp (by simp)
        · exact ⟨s', hmem, ds, hq'⟩
      obtain ⟨r', d', hfold, hg', hach, hmin⟩ := ih hqt
      refine ⟨r', d', hfold, hg', ?_, ?_⟩
      · obtain ⟨s', hs', hq'⟩ := hach
        exact ⟨s', List.mem_cons_of_mem s hs', hq'⟩
      · intro s' hs' ds hq'
        rcases List.mem_cons.mp hs' with rfl | hmem
        · obtain ⟨p, hp, _⟩ := hq'
          rw [hpos] at hp
          exact absurd hp (by simp)
        · exact hmin s' hmem ds hq'
    | some p =>
      by_cases hfar : dist uLat uLon p.1 p.2 > maxD
      · rw [List.foldl_cons, bestStationStep_far dist uLat uLon maxD _ s p hpos hfar]
        have hqt : ∃ s' ∈ t, ∃ ds, QualDist dist uLat uLon maxD s' ds := by
          obtain ⟨s', hs', ds, hq'⟩ := hq
          rcases List.mem_cons.mp hs' with rfl | hmem
          · obtain ⟨p', hp', hds, hcut, _⟩ := hq'
            rw [hpos] at hp'
            cases hp'
            rw [hds] at hcut
            exact absurd hcut (not_le.mpr hfar)
          · exact ⟨s', hmem, ds, hq'⟩
        obtain ⟨r', d', hfold, hg', hach, hmin⟩ := ih hqt
        refine ⟨r', d', hfold, hg', ?_, ?_⟩
        · obtain ⟨s', hs', hq'⟩ := hach
          exact ⟨s', List.mem_cons_of_mem s hs', hq'⟩
        · intro s' hs' ds hq'
          rcases List.mem_cons.mp hs' with rfl | hmem
          · obtain ⟨p', hp', hds, hcut, _⟩ := hq'
            rw [hpos] at hp'
            cases hp'
            rw [hds] at hcut
            exact absurd hcut (not_le.mpr hfar)
          · exact hmin s' hmem ds hq'
      · cases hmeas : latestValidMeasurement s.measurements with
        | none =>
          rw [List.foldl_cons,
            bestStationStep_noMeas dist uLat uLon maxD _ s p hpos hfar hmeas]
          have hqt : ∃ s' ∈ t, ∃ ds, QualDist dist uLat uLon maxD s' ds := by
            obtain ⟨s', hs', ds, hq'⟩ := hq
            rcases List.mem_cons.mp hs' with rfl | hmem
            · obtain ⟨_, _, _, _, hne⟩ := hq'
              exact absurd hmeas hne
            · exact ⟨s', hmem, ds, hq'⟩
          obtain ⟨r', d', hfold, hg', hach, hmin⟩ := ih hqt
          refine ⟨r', d', hfold, hg', ?_, ?_⟩
          · obtain ⟨s', hs', hq'⟩ := hach
            exact ⟨s', List.mem_cons_of_mem s hs', hq'⟩
          · intro s' hs' ds hq'
            rcases List.mem_cons.mp hs' with rfl | hmem
            · obtain ⟨_, _, _, _, hne⟩ := hq'
              exact absurd hmeas hne
            · exact hmin s' hmem ds hq'
        | some tv =>
          have hstep := bestStationStep_qual dist uLat uLon maxD
            Option.none s p tv hpos hfar hmeas
          have hqself : QualDist dist uLat uLon maxD s (dist uLat uLon p.1 p.2) :=
            ⟨p, hpos, rfl, not_lt.mp hfar, by rw [hmeas]; simp⟩
          rw [List.foldl_cons, hstep]
          have hgc : GoodBest (bestCandidate dist uLat uLon s p tv)
              (dist uLat uLon p.1 p.2) := ⟨by simp [bestCandidate], rfl⟩
          obtain ⟨r', d', hfold, hg', hle, hach, hmin⟩ :=
            bestFold_from_some dist uLat uLon maxD t _ _ hgc
          refine ⟨r', d', hfold, hg', ?_, ?_⟩
          · rcases hach with ⟨_, hd'⟩ | ⟨s', hs', hq'⟩
            · exact ⟨s, List.mem_cons_self s t, hd' ▸ hqself⟩
            · exact ⟨s', List.mem_cons_of_mem s hs', hq'⟩
          · intro s' hs' ds hq'
            rcases List.mem_cons.mp hs' with rfl | hmem
            · rw [hqs p hpos ds hq']
              exact hle
            · exact hmin s' hmem ds hq'

/-- C7: the bounding box of the radius search has half-widths
`latDelta = radiusKm/111` and `lonDelta = radiusKm/(111 * cos(lat in
radians))`, and whenever some parsed station is within the radius and has a
valid measurement, the parse result selects the station with the smallest
distance to the query point: it carries a station name, its reported distance
is the rounded distance of a qualifying station, and that distance is at most
the distance of every qualifying station — not merely the first one
encountered. -/
theorem stationSearch_bbox_and_closest (dist : ℚ → ℚ → ℚ → ℚ → ℚ)
    (cosOf : ℚ → ℚ) (piQ : ℚ) (lat lon radiusKm : ℚ) (series : List Series)
    (month : ℕ)
    (hq : ∃ s ∈ series, ∃ ds, QualDist dist lat lon radiusKm s ds) :
    (searchBBox cosOf piQ lat lon radiusKm =
      { minLon := lon - radiusKm / (111 * cosOf (lat * piQ / 180)),
        minLat := lat - radiusKm / 111,
        maxLon := lon + radiusKm / (111 * cosOf (lat * piQ / 180)),
        maxLat := lat + radiusKm / 111 }) ∧
    ∃ d', (parseTimeValuePairSnowResponse dist series lat lon radiusKm
        month).stationName ≠ Option.none ∧
      (parseTimeValuePairSnowResponse dist series lat lon radiusKm
        month).stationDistance = Option.some (jsRound d') ∧
      (∃ s ∈ series, QualDist dist lat lon radiusKm s d') ∧
      ∀ s ∈ series, ∀ ds, QualDist dist lat lon radiusKm s ds → d' ≤ ds := by
  constructor
  · rfl
  · obtain ⟨r', d', hfold, hg', hach, hmin⟩ :=
      bestFold_from_none dist lat lon radiusKm series hq
    refine ⟨d', ?_, ?_, hach, hmin⟩
    · unfold parseTimeValuePairSnowResponse
      rw [hfold]
      exact hg'.1
    · unfold parseTimeValuePairSnowResponse
      rw [hfold]
      exact hg'.2

/-- Witness for C7: on a response whose first station is at distance 10 and
whose second is at distance 3, the second (closest) station "B" is selected,
not the first one encountered. -/
theorem stationSearch_bbox_and_closest_witness :
    (∃ s ∈ wSeries, ∃ ds, QualDist wDist 0 0 25 s ds) ∧
    (parseTimeValuePairSnowResponse wDist wSeries 0 0 25 0).stationName =
      Option.some "B" ∧
    (∃ d', (parseTimeValuePairSnowResponse wDist wSeries 0 0 25
        0).stationName ≠ Option.none ∧
      (parseTimeValuePairSnowResponse wDist wSeries 0 0 25
        0).stationDistance = Option.some (jsRound d') ∧
      (∃ s ∈ wSeries, QualDist wDist 0 0 25 s d') ∧
      ∀ s ∈ wSeries, ∀ ds, QualDist wDist 0 0 25 s ds → d' ≤ ds) := by
  have hq : ∃ s ∈ wSeries, ∃ ds, QualDist wDist 0 0 25 s ds := by
    refine ⟨Series.mk (Option.some "B") (Option.some (3, 0)) [(0, Option.some 7)],
      by simp [wSeries], 3, (3, 0), rfl, rfl, by norm_num, ?_⟩
    simp [latestValidMeasurement]
    norm_num
  exact ⟨hq, rfl,
    (stationSearch_bbox_and_closest wDist (fun _ => 1) 3 0 0 25 wSeries 0 hq).2⟩

end Lumivahti
